import Mathlib

/-!
Shallow embedding of the fgbdump view-state core (src/lib.rs, src/main.rs,
src/projection.rs) and proofs about it.

Conventions:
* Rust `usize`/`u64` values are modelled as `Nat`; `saturating_sub` is the
  truncated subtraction of `Nat`, `saturating_add` is capped at `USIZE_MAX`.
* Checked (debug-build) arithmetic is modelled: an underflowing subtraction
  such as `len - 1` with `len == 0` is a panic, represented by `none` /
  a dedicated `aborted` constructor.
* Fallible Rust functions returning `Result` become `Except`; a Rust panic
  (`.unwrap()` on an `Err`, arithmetic underflow) is a distinct outcome,
  never conflated with a returned error.
* The external `proj` C library is an abstract parameter (`ProjLib`):
  `Proj::new_known_crs` may fail to resolve a CRS pair (`none`), and a
  resolved transform may reject a coordinate pair (`Except.error`).
-/

/-! ## src/projection.rs -/

/-- Constant `RATATUI_MAP_CRS` from src/projection.rs. -/
def RATATUI_MAP_CRS : String := "EPSG:4326"

/-- Struct `Bbox` from src/projection.rs: four `f64` fields. -/
structure Bbox where
  xmin : Float
  ymin : Float
  xmax : Float
  ymax : Float

/-- `Bbox::new` from src/projection.rs. -/
def Bbox.new (xmin ymin xmax ymax : Float) : Bbox :=
  { xmin := xmin, ymin := ymin, xmax := xmax, ymax := ymax }

/-- `Bbox::from_flatgeobuf_envelope` from src/projection.rs. The flatbuffers
`Vector<f64>` argument is modelled as a `List Float`; `envelope.get i` for
`i < 4` is `List.getD` (in bounds whenever the length check has passed, so
the default is never consulted). No ordering or finiteness validation is
performed, exactly as in the source. -/
def Bbox.from_flatgeobuf_envelope (envelope : List Float) : Except String Bbox :=
  if envelope.length ≠ 4 then
    Except.error "Flatgeobuf envelope must have 4 values"
  else
    Except.ok
      { xmin := envelope.getD 0 0
        ymin := envelope.getD 1 0
        xmax := envelope.getD 2 0
        ymax := envelope.getD 3 0 }

/-- Abstract model of the `proj` crate: `new_known_crs src dst` returns a
coordinate transform when the CRS pair can be resolved, `none` when it
cannot (the case `proj::Proj::new_known_crs` returns `Err`). A resolved
transform may itself reject a coordinate pair (`Except.error`), modelling
`proj::ProjError` from `convert`. -/
structure ProjLib where
  new_known_crs : String → String → Option (Float × Float → Except Unit (Float × Float))

/-- Outcome of running `Bbox::project_to_ratatui_map_crs`: a returned
`Ok` value, a returned `Err(ProjError)`, or a process abort (panic). -/
inductive ProjOutcome (α : Type) where
  | ok (val : α)
  | err
  | aborted
deriving DecidableEq

/-- `Bbox::project_to_ratatui_map_crs` from src/projection.rs, parameterised
by the abstract proj library. Faithful points: the identity fast path
compares the source CRS string with `RATATUI_MAP_CRS` and never consults the
library; otherwise `Proj::new_known_crs(source_crs, RATATUI_MAP_CRS, None)`
is built and immediately `.unwrap()`ed — a resolution failure is therefore a
panic (`aborted`), not a returned error — and the two corner conversions
propagate their `ProjError` with `?` (`err`). -/
def Bbox.project_to_ratatui_map_crs (lib : ProjLib) (b : Bbox) (source_crs : String) :
    ProjOutcome (Bbox × String) :=
  if source_crs = RATATUI_MAP_CRS then
    ProjOutcome.ok (b, "Extent of data in " ++ RATATUI_MAP_CRS)
  else
    match lib.new_known_crs source_crs RATATUI_MAP_CRS with
    | none => ProjOutcome.aborted
    | some convert =>
      match convert (b.xmin, b.ymin) with
      | Except.error _ => ProjOutcome.err
      | Except.ok (new_xmin, new_ymin) =>
        match convert (b.xmax, b.ymax) with
        | Except.error _ => ProjOutcome.err
        | Except.ok (new_xmax, new_ymax) =>
          ProjOutcome.ok
            (Bbox.new new_xmin new_ymin new_xmax new_ymax,
             "Extent of data in " ++ source_crs ++ " projected to " ++ RATATUI_MAP_CRS)

/-! ## src/lib.rs -/

/-- Struct `ColumnsTableState` from src/lib.rs. Of the wrapped ratatui
`TableState`, only the selection (`selected()` / `select(..)`) is ever read
or written by the program, so the model carries exactly that field. -/
structure ColumnsTableState where
  selected : Option Nat
deriving DecidableEq

/-- `ColumnsTableState::new` from src/lib.rs: selection starts at `Some(0)`
regardless of the row count. -/
def ColumnsTableState.new : ColumnsTableState := { selected := some 0 }

/-- `ColumnsTableState::next` from src/lib.rs. In the `Some(i)` branch the
source computes `len - 1` on `usize`; with `len == 0` this underflows, which
is a panic in a debug build (and wraps in release, leaving an out-of-range
selection). The underflow is modelled as the panic outcome `none`. -/
def ColumnsTableState.next (s : ColumnsTableState) (len : Nat) :
    Option ColumnsTableState :=
  match s.selected with
  | some i =>
    if len = 0 then none
    else some { selected := some (if i ≥ len - 1 then 0 else i + 1) }
  | none => some { selected := some 0 }

/-- `ColumnsTableState::previous` from src/lib.rs. `len - 1` is evaluated
only in the `i == 0` branch; with `len == 0` it underflows there (panic in a
debug build), modelled as `none`. -/
def ColumnsTableState.previous (s : ColumnsTableState) (len : Nat) :
    Option ColumnsTableState :=
  match s.selected with
  | some i =>
    if i = 0 then
      if len = 0 then none
      else some { selected := some (len - 1) }
    else some { selected := some (i - 1) }
  | none => some { selected := some 0 }

/-- Enum `SelectedTab` from src/lib.rs. -/
inductive SelectedTab where
  | Metadata
  | Columns
  | Map
deriving DecidableEq

/-- `SelectedTab::next` from src/lib.rs. -/
def SelectedTab.next : SelectedTab → SelectedTab
  | SelectedTab.Metadata => SelectedTab.Columns
  | SelectedTab.Columns => SelectedTab.Map
  | SelectedTab.Map => SelectedTab.Metadata

/-- `SelectedTab::previous` from src/lib.rs. -/
def SelectedTab.previous : SelectedTab → SelectedTab
  | SelectedTab.Metadata => SelectedTab.Map
  | SelectedTab.Columns => SelectedTab.Metadata
  | SelectedTab.Map => SelectedTab.Columns

/-! ## src/main.rs — decoded header record (external collaborator data) -/

/-- The CRS record of a decoded FlatGeobuf header, as accessed by
src/main.rs (`crs.org()`, `crs.code()`, `crs.name()`, `crs.code_string()`,
`crs.description()`, `crs.wkt()`). -/
structure Crs where
  org : Option String
  code : Int
  name : Option String
  code_string : Option String
  description : Option String
  wkt : Option String

/-- A column descriptor of a decoded FlatGeobuf header, as accessed by
src/main.rs. The type tag (`type_()`) is kept as its display string; only
presence and count matter to the verified properties. -/
structure FgbColumn where
  name : String
  type_tag : String
  description : Option String
  nullable : Bool
  primary_key : Bool
  unique : Bool

/-- The decoded FlatGeobuf header record consumed by `render_header_tui`
in src/main.rs. The envelope is the raw flatbuffers `Vector<f64>` modelled
as a `List Float`. -/
structure Header where
  name : Option String
  description : Option String
  features_count : Nat
  geometry_type : String
  index_node_size : Nat
  has_m : Bool
  has_z : Bool
  has_t : Bool
  has_tm : Bool
  columns : Option (List FgbColumn)
  crs : Option Crs
  envelope : Option (List Float)
  metadata : Option String

/-! ## src/main.rs — the metadata line list -/

/-- One line of the Metadata tab body. Each `info` line is recorded by the
label passed to `info_line` in src/main.rs; the rendered value strings are
display formatting that no verified property inspects, so they are not
carried. `blank` is `Line::default()`. -/
inductive MetaLine where
  | blank
  | info (label : String)
deriving DecidableEq

/-- The metadata line list assembled per redraw by the `SelectedTab::Metadata`
arm of `render_header_tui` (src/main.rs:137-192): eight fixed info lines, a
blank plus the four dimension lines, the optional CRS block (a blank plus six
info lines when a CRS is present, a single "CRS: Undefined" line otherwise),
and a blank plus the custom-metadata line. -/
def metadataLines (hdr : Header) : List MetaLine :=
  [MetaLine.info "Name",
   MetaLine.info "File Size",
   MetaLine.info "Description",
   MetaLine.info "Features",
   MetaLine.info "Bounds",
   MetaLine.info "Geometry Type",
   MetaLine.info "Columns",
   MetaLine.info "Spatial Index R-Tree Node Size"]
  ++ [MetaLine.blank,
      MetaLine.info "Has M Dimension",
      MetaLine.info "Has Z Dimension",
      MetaLine.info "Has T Dimension",
      MetaLine.info "Has TM Dimension"]
  ++ (match hdr.crs with
      | some _ =>
        [MetaLine.blank,
         MetaLine.info "CRS Code",
         MetaLine.info "CRS Name",
         MetaLine.info "CRS Code String",
         MetaLine.info "CRS Description",
         MetaLine.info "CRS Organization",
         MetaLine.info "CRS WKT"]
      | none => [MetaLine.info "CRS"])
  ++ [MetaLine.blank, MetaLine.info "Custom Metadata"]

/-! ## src/main.rs — scroll arithmetic -/

/-- Largest `usize` value (64-bit target), that is 2^64 - 1. -/
def USIZE_MAX : Nat := 18446744073709551615

/-- `usize::saturating_add(1)` as used on `metadata_scroll`
(src/main.rs:343). -/
def saturating_add_one (n : Nat) : Nat := min (n + 1) USIZE_MAX

/-- `usize::saturating_sub(1)` as used on `metadata_scroll`
(src/main.rs:353); truncated `Nat` subtraction is exactly saturating. -/
def saturating_sub_one (n : Nat) : Nat := n - 1

/-- Constant `TABLE_CHROME_ROWS` from src/main.rs:223 (top border + header
row + bottom border). -/
def TABLE_CHROME_ROWS : Nat := 3

/-- `visible_rows` from src/main.rs:224-225:
`content_area.height.saturating_sub(TABLE_CHROME_ROWS)`. -/
def visible_rows (content_height : Nat) : Nat :=
  content_height - TABLE_CHROME_ROWS

/-- `max_scroll` for the Columns tab, src/main.rs:227:
`total_rows.saturating_sub(visible_rows)`. -/
def columns_max_scroll (total_rows content_height : Nat) : Nat :=
  total_rows - visible_rows content_height

/-- `scroll_pos` for the Columns tab, src/main.rs:229-230:
`state.selected().unwrap_or(0).min(max_scroll)`. -/
def columns_scroll_pos (selected : Option Nat) (total_rows content_height : Nat) : Nat :=
  min (selected.getD 0) (columns_max_scroll total_rows content_height)

/-! ## src/main.rs — session setup (`render_header_tui` before the loop) -/

/-- The values `render_header_tui` computes before entering its event loop
(src/main.rs:94-109): the bounding box extracted from the envelope and the
`"org:code"` source-CRS string. -/
structure InitSession where
  bbox : Bbox
  src_proj_crs_string : String

/-- The fallible setup portion of `render_header_tui` (src/main.rs:94-109),
after terminal-mode entry: extract the envelope (`ok_or` + `?`), parse it
with `Bbox::from_flatgeobuf_envelope` (`?`), extract the CRS (`ok_or` + `?`)
and its organization (`ok_or` + `?`), and build the `"org:code"` string.
Every failure is an early `Err` return out of `render_header_tui`, which
`main` propagates with `?`, ending the process. -/
def render_header_tui_setup (hdr : Header) : Except String InitSession :=
  match hdr.envelope with
  | none => Except.error "No bbox extent envelope founbd in the flatgeobuf metadata"
  | some envelope =>
    match Bbox.from_flatgeobuf_envelope envelope with
    | Except.error e => Except.error e
    | Except.ok bbox =>
      match hdr.crs with
      | none => Except.error "No crs found in the flatgeobuf metadata; no map can be rendered"
      | some crs =>
        match crs.org with
        | none => Except.error "No crs org found in the flatgeobuf metadata; no map can be rendered "
        | some org =>
          Except.ok { bbox := bbox, src_proj_crs_string := org ++ ":" ++ toString crs.code }

/-! ## src/main.rs — the event/draw loop -/

/-- The mutable view state of the event loop in `render_header_tui`:
`selected_tab`, `metadata_scroll`, `metadata_scroll_state` (content length
and position of the ratatui `ScrollbarState`), `columns_table_state`,
`columns_scroll_state`, plus an instrumentation counter `proj_calls`
recording how many times `Bbox::project_to_ratatui_map_crs` has been
invoked (the code has no such variable; it is a ghost field that no branch
reads, added to state the once-per-session claim). -/
structure TuiState where
  tab : SelectedTab
  metadata_scroll : Nat
  metadata_scrollbar : Nat × Nat
  columns_table : ColumnsTableState
  columns_scrollbar : Nat × Nat
  proj_calls : Nat
deriving DecidableEq

/-- The view state at session start (src/main.rs:88-112): Metadata tab,
metadata scroll 0, default scrollbar states, column selection `Some(0)`,
and zero reprojector invocations so far. -/
def initTuiState : TuiState :=
  { tab := SelectedTab.Metadata
    metadata_scroll := 0
    metadata_scrollbar := (0, 0)
    columns_table := ColumnsTableState.new
    columns_scrollbar := (0, 0)
    proj_calls := 0 }

/-- The key presses the loop distinguishes (src/main.rs:332-361): Right,
Left, a quit key (Esc / q / Q / Ctrl-C), Down / j, Up / k, and anything
else. -/
inductive Key where
  | right
  | left
  | quit
  | down
  | up
  | other
deriving DecidableEq

/-- One execution of the draw closure (src/main.rs:115-323) on the current
state. Metadata arm: clamp `metadata_scroll` to the assembled line count and
set the scrollbar to `(len + 1, clamped)` (src/main.rs:194-199). Columns
arm: recompute the columns scrollbar from the focus (src/main.rs:221-234).
Map arm: invoke `Bbox::project_to_ratatui_map_crs` and `.unwrap()` it
(src/main.rs:316-318) — any non-`Ok` outcome is a panic, modelled as `none`;
on success the ghost counter `proj_calls` is incremented. -/
def drawStep (hdr : Header) (lib : ProjLib) (b : Bbox) (src : String)
    (content_height : Nat) (st : TuiState) : Option TuiState :=
  match st.tab with
  | SelectedTab.Metadata =>
    let max_scroll := (metadataLines hdr).length
    let ms := min st.metadata_scroll max_scroll
    some { st with metadata_scroll := ms, metadata_scrollbar := (max_scroll + 1, ms) }
  | SelectedTab.Columns =>
    let total_rows := (hdr.columns.getD []).length
    let max_scroll := columns_max_scroll total_rows content_height
    let scroll_pos := min (st.columns_table.selected.getD 0) max_scroll
    some { st with columns_scrollbar := (max_scroll + 1, scroll_pos) }
  | SelectedTab.Map =>
    match Bbox.project_to_ratatui_map_crs lib b src with
    | ProjOutcome.ok _ => some { st with proj_calls := st.proj_calls + 1 }
    | _ => none

/-- Result of one loop iteration: a panic, a `break` out of the loop, or
continuation with the updated state. -/
inductive StepOutcome where
  | aborted
  | quit (st : TuiState)
  | cont (st : TuiState)
deriving DecidableEq

/-- The key-event dispatch of the loop (src/main.rs:325-362): Right/Left
cycle the tab; Esc/q/Q/Ctrl-C break; Down and Up act on the model owned by
the active tab (Metadata: saturating scroll plus scrollbar position update;
Columns: `ColumnsTableState::next`/`previous` with the current column count,
whose `len == 0` underflow is a panic; Map: no-op); any other key is
ignored. -/
def handleKey (column_count : Nat) (k : Key) (st : TuiState) : StepOutcome :=
  match k with
  | Key.right => StepOutcome.cont { st with tab := st.tab.next }
  | Key.left => StepOutcome.cont { st with tab := st.tab.previous }
  | Key.quit => StepOutcome.quit st
  | Key.down =>
    match st.tab with
    | SelectedTab.Metadata =>
      let ms := saturating_add_one st.metadata_scroll
      StepOutcome.cont
        { st with metadata_scroll := ms, metadata_scrollbar := (st.metadata_scrollbar.1, ms) }
    | SelectedTab.Columns =>
      match st.columns_table.next column_count with
      | none => StepOutcome.aborted
      | some ts => StepOutcome.cont { st with columns_table := ts }
    | SelectedTab.Map => StepOutcome.cont st
  | Key.up =>
    match st.tab with
    | SelectedTab.Metadata =>
      let ms := saturating_sub_one st.metadata_scroll
      StepOutcome.cont
        { st with metadata_scroll := ms, metadata_scrollbar := (st.metadata_scrollbar.1, ms) }
    | SelectedTab.Columns =>
      match st.columns_table.previous column_count with
      | none => StepOutcome.aborted
      | some ts => StepOutcome.cont { st with columns_table := ts }
    | SelectedTab.Map => StepOutcome.cont st
  | Key.other => StepOutcome.cont st

/-- One full iteration of the loop in src/main.rs:114-364: draw with the
current state, then read and dispatch one key event. -/
def stepEvent (hdr : Header) (lib : ProjLib) (b : Bbox) (src : String)
    (content_height : Nat) (k : Key) (st : TuiState) : StepOutcome :=
  match drawStep hdr lib b src content_height st with
  | none => StepOutcome.aborted
  | some st1 => handleKey (hdr.columns.getD []).length k st1

/-- Result of running the loop against a finite stream of key events:
a panic, a `break` (quit key), or the state still running when the stream
is exhausted (the real loop would then block on `event::read()`). -/
inductive LoopResult where
  | aborted
  | finished (st : TuiState)
  | pending (st : TuiState)
deriving DecidableEq

/-- Run the `render_header_tui` loop over a finite list of key events. -/
def runLoop (hdr : Header) (lib : ProjLib) (b : Bbox) (src : String)
    (content_height : Nat) : List Key → TuiState → LoopResult
  | [], st => LoopResult.pending st
  | k :: ks, st =>
    match stepEvent hdr lib b src content_height k st with
    | StepOutcome.aborted => LoopResult.aborted
    | StepOutcome.quit st1 => LoopResult.finished st1
    | StepOutcome.cont st1 => runLoop hdr lib b src content_height ks st1

/-- The ghost reprojector-invocation count of a loop result, when the run
did not panic. -/
def LoopResult.final_proj_calls : LoopResult → Option Nat
  | LoopResult.aborted => none
  | LoopResult.finished st => some st.proj_calls
  | LoopResult.pending st => some st.proj_calls

/-! ## Concrete instances used by witnesses and counterexamples -/

/-- A proj library state that resolves no CRS pair at all; the identity
fast path must not consult it. -/
def noResolveLib : ProjLib := { new_known_crs := fun _ _ => none }

/-- A decoded header whose native CRS is EPSG:4326, with an extent and an
empty schema. -/
def hdr4326 : Header :=
  { name := some "demo"
    description := none
    features_count := 10
    geometry_type := "Point"
    index_node_size := 16
    has_m := false
    has_z := false
    has_t := false
    has_tm := false
    columns := some []
    crs := some { org := some "EPSG", code := 4326, name := none,
                  code_string := none, description := none, wkt := none }
    envelope := some [0, 0, 1, 1]
    metadata := none }

/-- A decoded header carrying no bounding-box envelope at all
(the MissingExtent condition). -/
def noExtentHeader : Header :=
  { name := none
    description := none
    features_count := 0
    geometry_type := "Unknown"
    index_node_size := 0
    has_m := false
    has_z := false
    has_t := false
    has_tm := false
    columns := some []
    crs := none
    envelope := none
    metadata := none }

/-- A decoded header with an extent but no CRS record
(the MissingCRS condition). -/
def noCrsHeader : Header :=
  { noExtentHeader with envelope := some [0, 0, 1, 1] }

/-- The view state sitting on the Map tab with everything else at its
initial value. -/
def mapTuiState : TuiState := { initTuiState with tab := SelectedTab.Map }

/-- The view state on the Metadata tab with a scroll offset (99) far past
the end of the line list. -/
def metaState99 : TuiState := { initTuiState with metadata_scroll := 99 }

/-- The state `drawStep` produces from `metaState99` on `hdr4326`: the
offset is clamped to the 22-line content and the scrollbar pair becomes
`(23, 22)`. -/
def metaState99After : TuiState :=
  { initTuiState with metadata_scroll := 22, metadata_scrollbar := (23, 22) }

/-! ## Helper lemmas -/

/-- A successful draw adds one reprojector invocation exactly when the
active tab is Map, and never otherwise. -/
theorem drawStep_proj_calls (hdr : Header) (lib : ProjLib) (b : Bbox) (src : String)
    (ch : Nat) (st st1 : TuiState)
    (h : drawStep hdr lib b src ch st = some st1) :
    st1.proj_calls = st.proj_calls + (if st.tab = SelectedTab.Map then 1 else 0) := by
  rcases st with ⟨tab, ms, msb, ct, csb, pc⟩
  cases tab
  case Metadata =>
    simp only [drawStep] at h
    injection h with h
    subst h
    simp
  case Columns =>
    simp only [drawStep] at h
    injection h with h
    subst h
    simp
  case Map =>
    simp only [drawStep] at h
    split at h
    · injection h with h
      subst h
      simp
    · exact Option.noConfusion h

/-- Key dispatch never touches the reprojector invocation count. -/
theorem handleKey_proj_calls (c : Nat) (k : Key) (st st1 : TuiState)
    (h : handleKey c k st = StepOutcome.cont st1 ∨ handleKey c k st = StepOutcome.quit st1) :
    st1.proj_calls = st.proj_calls := by
  rcases st with ⟨tab, ms, msb, ct, csb, pc⟩
  rcases h with h | h <;> cases k <;> cases tab <;>
    simp only [handleKey] at h <;>
    first
      | (injection h with h; subst h; rfl)
      | (split at h <;>
          first
            | (injection h with h; subst h; rfl)
            | exact StepOutcome.noConfusion h)
      | exact StepOutcome.noConfusion h

/-! ## Claim theorems -/

/-- C1: the claim says that reprojecting with a source CRS identifier the
library cannot resolve (such as "unknown-crs") returns a `ReprojectionError`
to the caller and never aborts. The code instead calls `.unwrap()` on
`Proj::new_known_crs` (src/projection.rs:51), so an unresolvable source CRS
panics the process: for every library state in which "unknown-crs" does not
resolve, and every box, the outcome is `aborted`, not `err`. -/
theorem c1_unresolvable_crs_aborts (lib : ProjLib) (b : Bbox)
    (h : lib.new_known_crs "unknown-crs" RATATUI_MAP_CRS = none) :
    Bbox.project_to_ratatui_map_crs lib b "unknown-crs" = ProjOutcome.aborted := by
  unfold Bbox.project_to_ratatui_map_crs
  rw [if_neg (by decide), h]

/-- Witness for C1 at a concrete library and box. -/
theorem c1_unresolvable_crs_aborts_witness :
    Bbox.project_to_ratatui_map_crs noResolveLib (Bbox.new 1 2 3 4) "unknown-crs"
      = ProjOutcome.aborted :=
  c1_unresolvable_crs_aborts noResolveLib (Bbox.new 1 2 3 4) rfl

/-- C2: the claim says that with row count 0 every advance/retreat call on
the Column Table Model is a panic-free no-op and the focused index is
absent. The code has no `row_count == 0` guard: from the initial state
(`Some(0)`, produced by `ColumnsTableState::new`), both `next(0)` and
`previous(0)` evaluate `len - 1` with `len == 0`, an underflow that panics
in debug builds (and stores an out-of-range index in release builds); and
the focused index in the initial state is `Some 0`, not absent. -/
theorem c2_empty_schema_advance_panics :
    ColumnsTableState.new.next 0 = none
    ∧ ColumnsTableState.new.previous 0 = none
    ∧ ColumnsTableState.new.selected = some 0 :=
  ⟨rfl, rfl, rfl⟩

/-- C3 counterexample: the claim says MissingExtent and MissingCRS are local
and recoverable and never terminate the interactive session. In the code the
setup of `render_header_tui` returns an error for each of them before the
event loop ever runs (src/main.rs:95-102); `main` propagates that error with
`?` and the process exits. -/
theorem c3_missing_extent_terminates_session :
    render_header_tui_setup noExtentHeader
      = Except.error "No bbox extent envelope founbd in the flatgeobuf metadata"
    ∧ render_header_tui_setup noCrsHeader
      = Except.error "No crs found in the flatgeobuf metadata; no map can be rendered" :=
  ⟨rfl, rfl⟩

/-- C3 amended: the error conditions are fatal rather than recoverable.
Setup succeeds exactly when the header has a 4-element envelope and a CRS
with an organization — so MissingExtent, a malformed envelope, MissingCRS
and a missing CRS organization each abort the session during setup, while
EmptySchema alone does not (setup never inspects the columns). A
reprojection failure is not shown as an error state: drawing the Map tab
`.unwrap()`s the reprojection result, so any non-`Ok` outcome panics the
process. -/
theorem c3_fatal_setup_errors (hdr : Header) (lib : ProjLib) (b : Bbox) (src : String)
    (ch : Nat) (st : TuiState)
    (hmap : st.tab = SelectedTab.Map)
    (hfail : ∀ r, Bbox.project_to_ratatui_map_crs lib b src ≠ ProjOutcome.ok r) :
    drawStep hdr lib b src ch st = none
    ∧ ((∃ s, render_header_tui_setup hdr = Except.ok s) ↔
        (∃ e, hdr.envelope = some e ∧ e.length = 4)
        ∧ ∃ c, hdr.crs = some c ∧ ∃ o, c.org = some o) := by
  constructor
  · rcases st with ⟨tab, ms, msb, ct, csb, pc⟩
    have htab : tab = SelectedTab.Map := hmap
    subst htab
    rcases hp : Bbox.project_to_ratatui_map_crs lib b src with r | _ | _
    · exact absurd hp (hfail r)
    · simp only [drawStep, hp]
    · simp only [drawStep, hp]
  · constructor
    · rintro ⟨s, hs⟩
      unfold render_header_tui_setup at hs
      split at hs
      · exact Except.noConfusion hs
      rename_i e henv
      split at hs
      · exact Except.noConfusion hs
      rename_i box hfe
      split at hs
      · exact Except.noConfusion hs
      rename_i c hcrs
      split at hs
      · exact Except.noConfusion hs
      rename_i o horg
      refine ⟨⟨e, henv, ?_⟩, c, hcrs, o, horg⟩
      by_contra hlen
      unfold Bbox.from_flatgeobuf_envelope at hfe
      rw [if_pos hlen] at hfe
      exact Except.noConfusion hfe
    · rintro ⟨⟨e, henv, hlen⟩, c, hcrs, o, horg⟩
      have hfe : Bbox.from_flatgeobuf_envelope e
          = Except.ok { xmin := e.getD 0 0, ymin := e.getD 1 0,
                        xmax := e.getD 2 0, ymax := e.getD 3 0 } := by
        unfold Bbox.from_flatgeobuf_envelope
        rw [if_neg (by simp [hlen])]
      refine ⟨{ bbox := { xmin := e.getD 0 0, ymin := e.getD 1 0,
                          xmax := e.getD 2 0, ymax := e.getD 3 0 },
                src_proj_crs_string := o ++ ":" ++ toString c.code }, ?_⟩
      unfold render_header_tui_setup
      simp only [henv, hfe, hcrs, horg]

/-- Witness for C3 amended: a library state with no resolvable CRS and a
non-identity source CRS make the Map draw panic, and `hdr4326` satisfies
both setup conditions. -/
theorem c3_fatal_setup_errors_witness :
    drawStep hdr4326 noResolveLib (Bbox.new 0 0 1 1) "ESRI:102100" 10 mapTuiState = none
    ∧ ((∃ s, render_header_tui_setup hdr4326 = Except.ok s) ↔
        (∃ e, hdr4326.envelope = some e ∧ e.length = 4)
        ∧ ∃ c, hdr4326.crs = some c ∧ ∃ o, c.org = some o) :=
  c3_fatal_setup_errors hdr4326 noResolveLib (Bbox.new 0 0 1 1) "ESRI:102100" 10 mapTuiState
    rfl (fun r h => by
      have hp : Bbox.project_to_ratatui_map_crs noResolveLib (Bbox.new 0 0 1 1) "ESRI:102100"
          = ProjOutcome.aborted := by
        unfold Bbox.project_to_ratatui_map_crs
        rw [if_neg (by decide)]
        rfl
      rw [hp] at h
      exact ProjOutcome.noConfusion h)

/-- C4 counterexample: the claim says the Map tab's display-CRS rectangle is
computed exactly once at session start and cached. In the code the session
start (`render_header_tui` before the loop) performs no reprojection at all,
and the draw closure invokes `Bbox::project_to_ratatui_map_crs` on every
redraw in which the Map tab is active: after the key sequence Right, Right,
Down, Down (reaching the Map tab and then redrawing it twice) the ghost
invocation counter is 2, not 1. -/
theorem c4_reprojection_rerun_per_redraw :
    initTuiState.proj_calls = 0
    ∧ (runLoop hdr4326 noResolveLib (Bbox.new 0 0 1 1) "EPSG:4326" 10
        [Key.right, Key.right, Key.down, Key.down] initTuiState).final_proj_calls
      = some 2 :=
  ⟨rfl, rfl⟩

/-- C4 amended: no reprojection happens at session start (the counter is 0
in the initial state), and each non-panicking loop iteration invokes the
reprojector exactly once when the Map tab is active at draw time and never
otherwise — the rectangle is recomputed per Map redraw, not cached. -/
theorem c4_projection_per_map_draw (hdr : Header) (lib : ProjLib) (b : Bbox)
    (src : String) (ch : Nat) (k : Key) (st st1 : TuiState)
    (h : stepEvent hdr lib b src ch k st = StepOutcome.cont st1
       ∨ stepEvent hdr lib b src ch k st = StepOutcome.quit st1) :
    initTuiState.proj_calls = 0
    ∧ st1.proj_calls = st.proj_calls + (if st.tab = SelectedTab.Map then 1 else 0) := by
  refine ⟨rfl, ?_⟩
  unfold stepEvent at h
  rcases hd : drawStep hdr lib b src ch st with _ | stMid
  · rw [hd] at h
    rcases h with h | h <;> exact StepOutcome.noConfusion h
  · rw [hd] at h
    have h1 := drawStep_proj_calls hdr lib b src ch st stMid hd
    have h2 := handleKey_proj_calls (hdr.columns.getD []).length k stMid st1 h
    rw [h2, h1]

/-- Witness for C4 amended: one Map-tab iteration on the identity CRS path
increments the counter from 0 to 1. -/
theorem c4_projection_per_map_draw_witness :
    initTuiState.proj_calls = 0
    ∧ ({ mapTuiState with proj_calls := 1 } : TuiState).proj_calls
      = mapTuiState.proj_calls + (if mapTuiState.tab = SelectedTab.Map then 1 else 0) :=
  c4_projection_per_map_draw hdr4326 noResolveLib (Bbox.new 0 0 1 1) "EPSG:4326" 10
    Key.other mapTuiState { mapTuiState with proj_calls := 1 } (Or.inl rfl)

/-- C5: when the source CRS identifier equals the display CRS identifier
(`RATATUI_MAP_CRS`), the reprojector returns the input box unchanged together
with the label "Extent of data in EPSG:4326" (stating the extent is already
in the display CRS), and the result does not depend on the transformation
library at all — the library is not invoked on this path. -/
theorem c5_identity_fast_path (lib : ProjLib) (b : Bbox) (src : String)
    (hsrc : src = RATATUI_MAP_CRS) :
    Bbox.project_to_ratatui_map_crs lib b src
      = ProjOutcome.ok (b, "Extent of data in " ++ RATATUI_MAP_CRS) := by
  subst hsrc
  unfold Bbox.project_to_ratatui_map_crs
  rw [if_pos rfl]

/-- Witness for C5 at a concrete (never resolving) library and box. -/
theorem c5_identity_fast_path_witness :
    Bbox.project_to_ratatui_map_crs noResolveLib (Bbox.new (-10) (-5) 10 5) "EPSG:4326"
      = ProjOutcome.ok (Bbox.new (-10) (-5) 10 5, "Extent of data in " ++ RATATUI_MAP_CRS) :=
  c5_identity_fast_path noResolveLib (Bbox.new (-10) (-5) 10 5) "EPSG:4326" rfl

/-- C6: tab next and previous are total over the closed 3-element cycle
Metadata → Columns → Map → Metadata: `next` applied three times is the
identity, and `previous` is the exact two-sided inverse of `next`. -/
theorem c6_tab_cycle (t : SelectedTab) :
    t.next.next.next = t ∧ t.next.previous = t ∧ t.previous.next = t := by
  cases t <;> exact ⟨rfl, rfl, rfl⟩

/-- C7: for every row count `n > 0` and focus `i ∈ [0, n)`, advance then
retreat (and retreat then advance) returns to focus `i` without panicking,
including across the wrap boundary; the first conjunct also pins the
advance result, so at `n = 3`, focus `2`, advance yields focus `0` and the
subsequent retreat yields focus `2`. -/
theorem c7_advance_retreat_roundtrip (n i : Nat) (hn : 0 < n) (hi : i < n) :
    (ColumnsTableState.mk (some i)).next n
        = some { selected := some (if i ≥ n - 1 then 0 else i + 1) }
    ∧ ((ColumnsTableState.mk (some i)).next n).bind (fun s => s.previous n)
        = some { selected := some i }
    ∧ ((ColumnsTableState.mk (some i)).previous n).bind (fun s => s.next n)
        = some { selected := some i } := by
  have hn0 : n ≠ 0 := by omega
  refine ⟨?_, ?_, ?_⟩
  · simp [ColumnsTableState.next, hn0]
  · by_cases hwrap : i ≥ n - 1
    · have hin : i = n - 1 := by omega
      subst hin
      simp [ColumnsTableState.next, ColumnsTableState.previous, hn0]
    · have h2 : i + 1 - 1 = i := by omega
      simp [ColumnsTableState.next, ColumnsTableState.previous, hn0, hwrap, h2]
  · by_cases hz : i = 0
    · subst hz
      simp [ColumnsTableState.previous, ColumnsTableState.next, hn0]
      omega
    · have h1 : ¬ i - 1 ≥ n - 1 := by omega
      have h2 : i - 1 + 1 = i := by omega
      simp [ColumnsTableState.previous, ColumnsTableState.next, hz, hn0, h1, h2]
      omega

/-- Witness for C7 at the wrap boundary named by the claim: `n = 3`,
focus `2`. -/
theorem c7_advance_retreat_roundtrip_witness :
    (ColumnsTableState.mk (some 2)).next 3
        = some { selected := some (if 2 ≥ 3 - 1 then 0 else 2 + 1) }
    ∧ ((ColumnsTableState.mk (some 2)).next 3).bind (fun s => s.previous 3)
        = some { selected := some 2 }
    ∧ ((ColumnsTableState.mk (some 2)).previous 3).bind (fun s => s.next 3)
        = some { selected := some 2 } :=
  c7_advance_retreat_roundtrip 3 2 (by decide) (by decide)

/-- C8: the Columns tab scroll offset is derived as the spec states —
`visible_rows` is the saturating difference of the content height and the
fixed chrome overhead of 3 rows (equal to `max 0 (height - 3)` over the
integers), `max_scroll_offset` is `max 0 (row_count - visible_rows)`, and
the scroll position is `min focused_index max_scroll_offset`; in the
5-row / 3-visible-rows / focus-4 scenario the computed offset is 2. -/
theorem c8_columns_scroll_derivation (h n i : Nat) :
    ((visible_rows h : Int) = max 0 ((h : Int) - (TABLE_CHROME_ROWS : Int)))
    ∧ ((columns_max_scroll n h : Int) = max 0 ((n : Int) - (visible_rows h : Int)))
    ∧ columns_scroll_pos (some i) n h = min i (columns_max_scroll n h)
    ∧ columns_scroll_pos (some 4) 5 6 = 2 := by
  refine ⟨?_, ?_, rfl, by decide⟩
  · unfold visible_rows TABLE_CHROME_ROWS
    omega
  · unfold columns_max_scroll
    omega

/-- C9: the metadata scroll offset saturates and is reconciled on every
redraw: scroll up from 0 stays at 0 (`saturating_sub`), scroll down adds 1
without panicking (`saturating_add`, exact below `usize::MAX`), and the
Metadata draw clamps whatever offset is stored — after arbitrarily many
scroll downs — to `min offset L` for the assembled line list of length `L`,
setting the scrollbar pair to `(L + 1, clamped offset)`; hence after any
redraw the offset never exceeds `L`. -/
theorem c9_metadata_scroll_clamped (hdr : Header) (lib : ProjLib) (b : Bbox)
    (src : String) (ch o : Nat) (st st1 : TuiState)
    (hdraw : drawStep hdr lib b src ch st = some st1)
    (hm : st.tab = SelectedTab.Metadata) (ho : o < USIZE_MAX) :
    st1.metadata_scroll = min st.metadata_scroll (metadataLines hdr).length
    ∧ st1.metadata_scroll ≤ (metadataLines hdr).length
    ∧ st1.metadata_scrollbar = ((metadataLines hdr).length + 1, st1.metadata_scroll)
    ∧ saturating_sub_one 0 = 0
    ∧ saturating_add_one o = o + 1 := by
  rcases st with ⟨tab, ms, msb, ct, csb, pc⟩
  simp only at hm
  subst hm
  simp only [drawStep] at hdraw
  injection hdraw with hdraw
  subst hdraw
  refine ⟨rfl, Nat.min_le_right _ _, rfl, rfl, ?_⟩
  unfold saturating_add_one USIZE_MAX
  unfold USIZE_MAX at ho
  omega

/-- Witness for C9: drawing `hdr4326`'s Metadata tab with stored offset 99
clamps it to the 22-line content and yields the scrollbar pair `(23, 22)`. -/
theorem c9_metadata_scroll_clamped_witness :
    metaState99After.metadata_scroll
        = min metaState99.metadata_scroll (metadataLines hdr4326).length
    ∧ metaState99After.metadata_scroll ≤ (metadataLines hdr4326).length
    ∧ metaState99After.metadata_scrollbar
        = ((metadataLines hdr4326).length + 1, metaState99After.metadata_scroll)
    ∧ saturating_sub_one 0 = 0
    ∧ saturating_add_one 5 = 5 + 1 :=
  c9_metadata_scroll_clamped hdr4326 noResolveLib (Bbox.new 0 0 1 1) "EPSG:4326" 10 5
    metaState99 metaState99After (by decide) rfl (by decide)

/-- C10: `Bbox::from_flatgeobuf_envelope` returns an error exactly when the
envelope's length is not 4; on every 4-element envelope `[a, b, c, d]` it
returns `Ok` with `xmin = a`, `ymin = b`, `xmax = c`, `ymax = d`, with no
validation of `xmin ≤ xmax` / `ymin ≤ ymax` and no finiteness check (the
quantification is over all `Float` values, including inverted, infinite and
NaN corners). -/
theorem c10_envelope_parse (e : List Float) (a b c d : Float) :
    ((∃ msg, Bbox.from_flatgeobuf_envelope e = Except.error msg) ↔ e.length ≠ 4)
    ∧ Bbox.from_flatgeobuf_envelope [a, b, c, d]
        = Except.ok { xmin := a, ymin := b, xmax := c, ymax := d } := by
  constructor
  · constructor
    · rintro ⟨msg, hmsg⟩ hlen
      unfold Bbox.from_flatgeobuf_envelope at hmsg
      rw [if_neg (by simp [hlen])] at hmsg
      exact Except.noConfusion hmsg
    · intro hlen
      refine ⟨"Flatgeobuf envelope must have 4 values", ?_⟩
      unfold Bbox.from_flatgeobuf_envelope
      rw [if_pos hlen]
  · rfl
